import Mathlib

/-!
# Shallow embedding of the db-l2-melt backend (schema, query layer, HTTP endpoints)

The repository is a PostgreSQL-backed CRUD layer (`src/db.py`), a schema with
constraints (`src/db_setup.py`), pydantic input schemas (`src/schemas.py`) and a
small FastAPI app (`src/app.py`).

Modelling conventions:
- A database row result (psycopg2 `RealDictCursor` dict) is an association list
  `Row = List (String × Value)` in SELECT-list order.
- Tables are Lean lists of structured records; `SERIAL` id assignment is an
  explicit per-table counter in the `DB` state.
- `now()` is an explicit `now : Int` argument to every function whose SQL calls
  `now()`; timestamps are abstract integer instants.
- Constraint failures (`CHECK`, `UNIQUE`, foreign keys) are `DBError` values;
  a raised error under `with conn:` rolls back, so an erroring call leaves the
  state unchanged (write operations return `Except DBError (result × DB)`).
- Constraint evaluation order follows PostgreSQL: row `CHECK` constraints
  first, then unique-index violations, then foreign-key (after-row trigger)
  checks.
- `WHERE id = %s` updates are modelled by mapping over the table; primary-key
  ids are unique in reachable states, so this matches the SQL row update.
- The JSONB `settings` value is modelled as its serialized string
  (`json.dumps(settings or {})` becomes `settings.getD "\x7b\x7d"` on an
  `Option String` argument standing for the optional Python dict).
-/

namespace Melt

/-- A SQL value as it appears in a `RealDictCursor` result dict. -/
inductive Value where
  | vnull : Value
  | vint : Int → Value
  | vstr : String → Value
  | vbool : Bool → Value
  deriving DecidableEq, Repr

/-- A result row: a dict from column names to values, in SELECT-list order. -/
abbrev Row := List (String × Value)

/-- Optional integer column value. -/
def optIntV : Option Int → Value
  | none => .vnull
  | some n => .vint n

/-- Optional text column value. -/
def optStrV : Option String → Value
  | none => .vnull
  | some s => .vstr s

/-- A row of the `users` table (db_setup.py). -/
structure UserRec where
  id : Int
  email : String
  password_hash : String
  avatar_url : Option String
  role : String
  created_at : Int
  updated_at : Int
  deriving DecidableEq, Repr

/-- A row of the `presentations` table. -/
structure PresentationRec where
  id : Int
  owner_id : Int
  title : String
  created_at : Int
  updated_at : Int
  deriving DecidableEq, Repr

/-- A row of the `question_types` lookup table. -/
structure QuestionTypeRec where
  code : String
  label : String
  uses_options : Bool
  allows_text_answer : Bool
  deriving DecidableEq, Repr

/-- A row of the `questions` table. -/
structure QuestionRec where
  id : Int
  presentation_id : Int
  type_code : String
  text : String
  media_url : Option String
  order_index : Int
  settings : String
  created_at : Int
  updated_at : Int
  deriving DecidableEq, Repr

/-- A row of the `options` table. -/
structure OptionRec where
  id : Int
  question_id : Int
  text : String
  is_correct : Bool
  order_index : Int
  deriving DecidableEq, Repr

/-- A row of the `live_sessions` table. -/
structure SessionRec where
  id : Int
  presentation_id : Int
  access_code : String
  status : String
  current_question_id : Option Int
  created_at : Int
  started_at : Option Int
  ended_at : Option Int
  deriving DecidableEq, Repr

/-- A row of the `participants` table. -/
structure ParticipantRec where
  id : Int
  session_id : Int
  nickname : String
  joined_at : Int
  deriving DecidableEq, Repr

/-- A row of the `votes` table. -/
structure VoteRec where
  id : Int
  session_id : Int
  participant_id : Int
  question_id : Int
  option_id : Option Int
  text_answer : Option String
  created_at : Int
  deriving DecidableEq, Repr

/-- A row of the `qna_messages` table. -/
structure QnaMessageRec where
  id : Int
  session_id : Int
  participant_id : Option Int
  text : String
  is_answered : Bool
  is_hidden : Bool
  created_at : Int
  deriving DecidableEq, Repr

/-- A row of the `qna_upvotes` bridge table. -/
structure QnaUpvoteRec where
  id : Int
  message_id : Int
  participant_id : Int
  created_at : Int
  deriving DecidableEq, Repr

/-- The whole database state: the nine tables plus the SERIAL counters. -/
structure DB where
  users : List UserRec
  presentations : List PresentationRec
  question_types : List QuestionTypeRec
  questions : List QuestionRec
  options : List OptionRec
  live_sessions : List SessionRec
  participants : List ParticipantRec
  votes : List VoteRec
  qna_messages : List QnaMessageRec
  qna_upvotes : List QnaUpvoteRec
  next_user_id : Int
  next_presentation_id : Int
  next_question_id : Int
  next_option_id : Int
  next_session_id : Int
  next_participant_id : Int
  next_vote_id : Int
  next_message_id : Int
  next_upvote_id : Int
  deriving DecidableEq, Repr

/-- The empty database right after `CREATE TABLE` (before the seed step). -/
def dbEmpty : DB :=
  ⟨[], [], [], [], [], [], [], [], [], [], 1, 1, 1, 1, 1, 1, 1, 1, 1⟩

/-- Database errors surfaced by psycopg2 on constraint violations. -/
inductive DBError where
  | uniqueViolation : String → DBError
  | checkViolation : String → DBError
  | fkViolation : String → DBError
  deriving DecidableEq, Repr

/-- The state after a write call: the new state on success, the unchanged
state on a raised constraint error (`with conn:` rolls back). -/
def stateAfter {α : Type} (r : Except DBError (α × DB)) (db : DB) : DB :=
  match r with
  | .ok (_, db') => db'
  | .error _ => db

/-- Insertion into a list sorted by `le` (`le a b` = `a` may come before `b`). -/
def insertOn {α : Type} (le : α → α → Bool) (a : α) : List α → List α
  | [] => [a]
  | b :: bs => if le a b then a :: b :: bs else b :: insertOn le a bs

/-- Stable insertion sort, modelling a SQL `ORDER BY`. -/
def sortOn {α : Type} (le : α → α → Bool) : List α → List α
  | [] => []
  | a :: as => insertOn le a (sortOn le as)

/-! ## Users (db.py, USERS section)

All user SELECT/RETURNING lists are
`id, email, avatar_url, role, created_at, updated_at` — `password_hash` is
never selected. -/

/-- The dict built for a user row by every user query's column list. -/
def userToDict (u : UserRec) : Row :=
  [("id", .vint u.id), ("email", .vstr u.email),
   ("avatar_url", optStrV u.avatar_url), ("role", .vstr u.role),
   ("created_at", .vint u.created_at), ("updated_at", .vint u.updated_at)]

/-- `users_list(conn)`: SELECT … FROM users ORDER BY id. -/
def users_list (db : DB) : List Row :=
  (sortOn (fun a b => decide (a.id ≤ b.id)) db.users).map userToDict

/-- `users_get(conn, user_id)`: SELECT … FROM users WHERE id = %s (fetchone). -/
def users_get (db : DB) (user_id : Int) : Option Row :=
  (db.users.find? (fun u => u.id == user_id)).map userToDict

/-- `users_create(conn, email, password_hash, avatar_url=None, role="teacher")`:
INSERT INTO users … RETURNING id, email, avatar_url, role, created_at,
updated_at. The `email` column is UNIQUE. -/
def users_create (db : DB) (now : Int) (email password_hash : String)
    (avatar_url : Option String) (role : String) :
    Except DBError (Row × DB) :=
  if db.users.any (fun u => u.email == email) then
    .error (.uniqueViolation "users_email_key")
  else
    let u : UserRec :=
      ⟨db.next_user_id, email, password_hash, avatar_url, role, now, now⟩
    .ok (userToDict u,
      { db with users := db.users ++ [u], next_user_id := db.next_user_id + 1 })

/-- `users_update(conn, user_id, email, password_hash, avatar_url, role)`:
full UPDATE of all mutable columns, `updated_at = now()`, RETURNING the
non-password columns; fetchone is None when no row matched. -/
def users_update (db : DB) (now : Int) (user_id : Int)
    (email password_hash : String) (avatar_url : Option String)
    (role : String) : Except DBError (Option Row × DB) :=
  let f : UserRec → UserRec := fun u =>
    { u with email := email, password_hash := password_hash,
             avatar_url := avatar_url, role := role, updated_at := now }
  match db.users.find? (fun u => u.id == user_id) with
  | none => .ok (none, db)
  | some u =>
    if db.users.any (fun v => v.email == email && v.id != user_id) then
      .error (.uniqueViolation "users_email_key")
    else
      .ok (some (userToDict (f u)),
        { db with users := db.users.map fun v => if v.id == user_id then f v else v })

/-- `users_patch(conn, user_id, email=None, password_hash=None,
avatar_url=None, role=None)`: builds the SET clause from the non-None
arguments only; with no updates it returns None before touching the
database; otherwise UPDATE … SET …, updated_at = now() WHERE id = %s
RETURNING the non-password columns. -/
def users_patch (db : DB) (now : Int) (user_id : Int)
    (email password_hash avatar_url role : Option String) :
    Except DBError (Option Row × DB) :=
  if email.isNone && password_hash.isNone && avatar_url.isNone && role.isNone then
    .ok (none, db)
  else
    let f : UserRec → UserRec := fun u =>
      { u with
        email := email.getD u.email,
        password_hash := password_hash.getD u.password_hash,
        avatar_url := (match avatar_url with
          | some a => some a
          | none => u.avatar_url),
        role := role.getD u.role,
        updated_at := now }
    match db.users.find? (fun u => u.id == user_id) with
    | none => .ok (none, db)
    | some u =>
      if (match email with
          | some e => db.users.any (fun v => v.email == e && v.id != user_id)
          | none => false) then
        .error (.uniqueViolation "users_email_key")
      else
        .ok (some (userToDict (f u)),
          { db with users := db.users.map fun v => if v.id == user_id then f v else v })

/-! ## Presentations (db.py, PRESENTATIONS section) -/

/-- The dict of the columns `p.id, p.owner_id, p.title, p.created_at,
p.updated_at` shared by the presentation queries. -/
def presToDict (p : PresentationRec) : Row :=
  [("id", .vint p.id), ("owner_id", .vint p.owner_id), ("title", .vstr p.title),
   ("created_at", .vint p.created_at), ("updated_at", .vint p.updated_at)]

/-- `presentations_list(conn)`: SELECT p.*, u.email AS owner_email FROM
presentations p JOIN users u ON u.id = p.owner_id ORDER BY p.created_at DESC.
The inner join drops a presentation without a matching user (unreachable given
the foreign key). -/
def presentations_list (db : DB) : List Row :=
  (sortOn (fun a b => decide (b.created_at ≤ a.created_at)) db.presentations).filterMap
    fun p =>
      (db.users.find? (fun u => u.id == p.owner_id)).map
        fun u => presToDict p ++ [("owner_email", .vstr u.email)]

/-- `presentations_get(conn, presentation_id)`: the same join, WHERE p.id = %s,
fetchone. -/
def presentations_get (db : DB) (presentation_id : Int) : Option Row :=
  match db.presentations.find? (fun p => p.id == presentation_id) with
  | none => none
  | some p =>
    (db.users.find? (fun u => u.id == p.owner_id)).map
      fun u => presToDict p ++ [("owner_email", .vstr u.email)]

/-- `presentations_create(conn, owner_id, title)`: INSERT INTO presentations
(owner_id, title) VALUES … RETURNING id, owner_id, title, created_at,
updated_at; `owner_id` has a foreign key into `users`. -/
def presentations_create (db : DB) (now : Int) (owner_id : Int)
    (title : String) : Except DBError (Row × DB) :=
  if !(db.users.any (fun u => u.id == owner_id)) then
    .error (.fkViolation "presentations_owner_id_fkey")
  else
    let p : PresentationRec := ⟨db.next_presentation_id, owner_id, title, now, now⟩
    .ok (presToDict p,
      { db with presentations := db.presentations ++ [p],
                next_presentation_id := db.next_presentation_id + 1 })

/-- `presentations_update(conn, presentation_id, owner_id, title)`: full
UPDATE with `updated_at = now()`, RETURNING the row; None when not found. -/
def presentations_update (db : DB) (now : Int) (presentation_id owner_id : Int)
    (title : String) : Except DBError (Option Row × DB) :=
  let f : PresentationRec → PresentationRec := fun p =>
    { p with owner_id := owner_id, title := title, updated_at := now }
  match db.presentations.find? (fun p => p.id == presentation_id) with
  | none => .ok (none, db)
  | some p =>
    if !(db.users.any (fun u => u.id == owner_id)) then
      .error (.fkViolation "presentations_owner_id_fkey")
    else
      .ok (some (presToDict (f p)),
        { db with presentations :=
            db.presentations.map fun q => if q.id == presentation_id then f q else q })

/-! ## Question types (db_setup.py seed and db.py lookup) -/

/-- The thirteen seed rows inserted by `create_tables` with
`ON CONFLICT (code) DO NOTHING`. -/
def seedQuestionTypes : List QuestionTypeRec :=
  [⟨"multiple_choice", "Multiple choice", true, false⟩,
   ⟨"quiz", "Quiz", true, false⟩,
   ⟨"open_ended", "Open ended", false, true⟩,
   ⟨"word_cloud", "Word cloud", false, true⟩,
   ⟨"scales", "Scales", false, false⟩,
   ⟨"ranking", "Ranking", false, false⟩,
   ⟨"qna", "Q&A", false, true⟩,
   ⟨"image_choice", "Image choice", true, false⟩,
   ⟨"slider", "Slider", false, false⟩,
   ⟨"grid", "Grid", false, false⟩,
   ⟨"prioritization", "Prioritization", false, false⟩,
   ⟨"quick_form", "Quick form", false, true⟩,
   ⟨"content_slide", "Content slide", false, false⟩]

/-- One row of the seed INSERT: `ON CONFLICT (code) DO NOTHING` skips the row
when its primary key `code` is already present. -/
def seedInsertOne (db : DB) (r : QuestionTypeRec) : DB :=
  if db.question_types.any (fun t => t.code == r.code) then db
  else { db with question_types := db.question_types ++ [r] }

/-- The seed step of `create_tables`: the multi-row INSERT of the thirteen
question types, each row subject to `ON CONFLICT (code) DO NOTHING`. -/
def seedQuestionTypesStep (db : DB) : DB :=
  seedQuestionTypes.foldl seedInsertOne db

/-- `question_types_list(conn)`: SELECT code, label, uses_options,
allows_text_answer FROM question_types ORDER BY code. -/
def question_types_list (db : DB) : List Row :=
  (sortOn (fun a b => decide (a.code ≤ b.code)) db.question_types).map
    fun t => [("code", .vstr t.code), ("label", .vstr t.label),
              ("uses_options", .vbool t.uses_options),
              ("allows_text_answer", .vbool t.allows_text_answer)]

/-! ## Questions (db.py, QUESTIONS section) -/

/-- The dict of the columns `q.id, …, q.updated_at` shared by the question
queries. -/
def questionToDict (q : QuestionRec) : Row :=
  [("id", .vint q.id), ("presentation_id", .vint q.presentation_id),
   ("type_code", .vstr q.type_code), ("text", .vstr q.text),
   ("media_url", optStrV q.media_url), ("order_index", .vint q.order_index),
   ("settings", .vstr q.settings), ("created_at", .vint q.created_at),
   ("updated_at", .vint q.updated_at)]

/-- `questions_list_for_presentation(conn, presentation_id)`: SELECT q.*,
qt.label AS type_label … JOIN question_types … WHERE q.presentation_id = %s
ORDER BY q.order_index, q.id. -/
def questions_list_for_presentation (db : DB) (presentation_id : Int) : List Row :=
  (sortOn
      (fun a b => decide (a.order_index < b.order_index ∨
        (a.order_index = b.order_index ∧ a.id ≤ b.id)))
      (db.questions.filter (fun q => q.presentation_id == presentation_id))).filterMap
    fun q =>
      (db.question_types.find? (fun t => t.code == q.type_code)).map
        fun t => questionToDict q ++ [("type_label", .vstr t.label)]

/-- `questions_get(conn, question_id)`: the same join, WHERE q.id = %s,
fetchone. -/
def questions_get (db : DB) (question_id : Int) : Option Row :=
  match db.questions.find? (fun q => q.id == question_id) with
  | none => none
  | some q =>
    (db.question_types.find? (fun t => t.code == q.type_code)).map
      fun t => questionToDict q ++ [("type_label", .vstr t.label)]

/-- `questions_create(conn, presentation_id, type_code, text, media_url=None,
order_index=0, settings=None)`: serializes `settings or \x7b\x7d` and INSERTs,
RETURNING all columns; foreign keys into `presentations` and
`question_types`. The `settings` argument stands for the serialized form of
the optional Python dict. -/
def questions_create (db : DB) (now : Int) (presentation_id : Int)
    (type_code text : String) (media_url : Option String) (order_index : Int)
    (settings : Option String) : Except DBError (Row × DB) :=
  let settings_json := settings.getD "\x7b\x7d"
  if !(db.presentations.any (fun p => p.id == presentation_id)) then
    .error (.fkViolation "questions_presentation_id_fkey")
  else if !(db.question_types.any (fun t => t.code == type_code)) then
    .error (.fkViolation "questions_type_code_fkey")
  else
    let q : QuestionRec :=
      ⟨db.next_question_id, presentation_id, type_code, text, media_url,
       order_index, settings_json, now, now⟩
    .ok (questionToDict q,
      { db with questions := db.questions ++ [q],
                next_question_id := db.next_question_id + 1 })

/-- `questions_update(conn, question_id, presentation_id, type_code, text,
media_url, order_index, settings)`: full UPDATE with `updated_at = now()`,
RETURNING the row; None when not found. -/
def questions_update (db : DB) (now : Int) (question_id presentation_id : Int)
    (type_code text : String) (media_url : Option String) (order_index : Int)
    (settings : Option String) : Except DBError (Option Row × DB) :=
  let settings_json := settings.getD "\x7b\x7d"
  let f : QuestionRec → QuestionRec := fun q =>
    { q with presentation_id := presentation_id, type_code := type_code,
             text := text, media_url := media_url,
             order_index := order_index, settings := settings_json,
             updated_at := now }
  match db.questions.find? (fun q => q.id == question_id) with
  | none => .ok (none, db)
  | some q =>
    if !(db.presentations.any (fun p => p.id == presentation_id)) then
      .error (.fkViolation "questions_presentation_id_fkey")
    else if !(db.question_types.any (fun t => t.code == type_code)) then
      .error (.fkViolation "questions_type_code_fkey")
    else
      .ok (some (questionToDict (f q)),
        { db with questions :=
            db.questions.map fun r => if r.id == question_id then f r else r })

/-! ## Options (db.py, OPTIONS section) -/

/-- The dict of the columns of the `options` table. -/
def optionToDict (o : OptionRec) : Row :=
  [("id", .vint o.id), ("question_id", .vint o.question_id),
   ("text", .vstr o.text), ("is_correct", .vbool o.is_correct),
   ("order_index", .vint o.order_index)]

/-- `options_list_for_question(conn, question_id)`: SELECT … WHERE
question_id = %s ORDER BY order_index, id. -/
def options_list_for_question (db : DB) (question_id : Int) : List Row :=
  (sortOn
      (fun a b => decide (a.order_index < b.order_index ∨
        (a.order_index = b.order_index ∧ a.id ≤ b.id)))
      (db.options.filter (fun o => o.question_id == question_id))).map optionToDict

/-- `options_create(conn, question_id, text, is_correct=False,
order_index=0)`: INSERT … RETURNING; foreign key into `questions`. -/
def options_create (db : DB) (question_id : Int) (text : String)
    (is_correct : Bool) (order_index : Int) : Except DBError (Row × DB) :=
  if !(db.questions.any (fun q => q.id == question_id)) then
    .error (.fkViolation "options_question_id_fkey")
  else
    let o : OptionRec := ⟨db.next_option_id, question_id, text, is_correct, order_index⟩
    .ok (optionToDict o,
      { db with options := db.options ++ [o],
                next_option_id := db.next_option_id + 1 })

/-! ## Live sessions (db.py, LIVE SESSIONS section)

The table carries `UNIQUE (access_code)`, the check constraint
`live_sessions_status_check CHECK (status IN ('created','live','ended'))`, a
foreign key `presentation_id → presentations` and
`current_question_id → questions ON DELETE SET NULL`. -/

/-- The statuses allowed by `live_sessions_status_check`. -/
def sessionStatuses : List String := ["created", "live", "ended"]

/-- The dict of the plain `live_sessions` columns (sessions_get,
sessions_get_by_code, sessions_create, sessions_update, sessions_patch all
return this same column list). -/
def sessionToDict (s : SessionRec) : Row :=
  [("id", .vint s.id), ("presentation_id", .vint s.presentation_id),
   ("access_code", .vstr s.access_code), ("status", .vstr s.status),
   ("current_question_id", optIntV s.current_question_id),
   ("created_at", .vint s.created_at), ("started_at", optIntV s.started_at),
   ("ended_at", optIntV s.ended_at)]

/-- `sessions_list(conn)`: SELECT ls.*, p.title AS presentation_title … JOIN
presentations … ORDER BY ls.created_at DESC. -/
def sessions_list (db : DB) : List Row :=
  (sortOn (fun a b => decide (b.created_at ≤ a.created_at)) db.live_sessions).filterMap
    fun s =>
      (db.presentations.find? (fun p => p.id == s.presentation_id)).map
        fun p => sessionToDict s ++ [("presentation_title", .vstr p.title)]

/-- `sessions_get(conn, session_id)`: SELECT … WHERE id = %s, fetchone. -/
def sessions_get (db : DB) (session_id : Int) : Option Row :=
  (db.live_sessions.find? (fun s => s.id == session_id)).map sessionToDict

/-- `sessions_get_by_code(conn, access_code)`: SELECT … WHERE
access_code = %s, fetchone. -/
def sessions_get_by_code (db : DB) (access_code : String) : Option Row :=
  (db.live_sessions.find? (fun s => s.access_code == access_code)).map sessionToDict

/-- `sessions_create(conn, presentation_id, access_code, status="created",
current_question_id=None)`: INSERT … RETURNING all columns; `started_at` and
`ended_at` stay NULL, `created_at` defaults to now(). -/
def sessions_create (db : DB) (now : Int) (presentation_id : Int)
    (access_code status : String) (current_question_id : Option Int) :
    Except DBError (Row × DB) :=
  if !(sessionStatuses.contains status) then
    .error (.checkViolation "live_sessions_status_check")
  else if db.live_sessions.any (fun s => s.access_code == access_code) then
    .error (.uniqueViolation "live_sessions_access_code_key")
  else if !(db.presentations.any (fun p => p.id == presentation_id)) then
    .error (.fkViolation "live_sessions_presentation_id_fkey")
  else if (match current_question_id with
           | some q => !(db.questions.any (fun r => r.id == q))
           | none => false) then
    .error (.fkViolation "live_sessions_current_question_id_fkey")
  else
    let s : SessionRec :=
      ⟨db.next_session_id, presentation_id, access_code, status,
       current_question_id, now, none, none⟩
    .ok (sessionToDict s,
      { db with live_sessions := db.live_sessions ++ [s],
                next_session_id := db.next_session_id + 1 })

/-- `sessions_update(conn, session_id, presentation_id, access_code, status,
current_question_id=None)`: full UPDATE of the four mutable columns,
RETURNING the row; None when not found. -/
def sessions_update (db : DB) (session_id presentation_id : Int)
    (access_code status : String) (current_question_id : Option Int) :
    Except DBError (Option Row × DB) :=
  match db.live_sessions.find? (fun s => s.id == session_id) with
  | none => .ok (none, db)
  | some s =>
    if !(sessionStatuses.contains status) then
      .error (.checkViolation "live_sessions_status_check")
    else if db.live_sessions.any
        (fun t => t.access_code == access_code && t.id != session_id) then
      .error (.uniqueViolation "live_sessions_access_code_key")
    else if !(db.presentations.any (fun p => p.id == presentation_id)) then
      .error (.fkViolation "live_sessions_presentation_id_fkey")
    else if (match current_question_id with
             | some q => !(db.questions.any (fun r => r.id == q))
             | none => false) then
      .error (.fkViolation "live_sessions_current_question_id_fkey")
    else
      let f : SessionRec → SessionRec := fun t =>
        { t with presentation_id := presentation_id,
                 access_code := access_code, status := status,
                 current_question_id := current_question_id }
      .ok (some (sessionToDict (f s)),
        { db with live_sessions :=
            db.live_sessions.map fun t => if t.id == session_id then f t else t })

/-- `sessions_patch(conn, session_id, status=None, current_question_id=None)`:
builds the SET clause from the non-None arguments only; with no updates it
returns None before touching the database; otherwise UPDATE … WHERE id = %s
RETURNING the row (no `updated_at` column exists on this table). The status
check constraint applies to the updated row; the foreign key on
`current_question_id` is revalidated when that column is assigned. -/
def sessions_patch (db : DB) (session_id : Int) (status : Option String)
    (current_question_id : Option Int) : Except DBError (Option Row × DB) :=
  if status.isNone && current_question_id.isNone then
    .ok (none, db)
  else
    let f : SessionRec → SessionRec := fun s =>
      { s with
        status := status.getD s.status,
        current_question_id := (match current_question_id with
          | some q => some q
          | none => s.current_question_id) }
    match db.live_sessions.find? (fun s => s.id == session_id) with
    | none => .ok (none, db)
    | some s =>
      if !(sessionStatuses.contains (f s).status) then
        .error (.checkViolation "live_sessions_status_check")
      else if (match current_question_id with
               | some q => !(db.questions.any (fun r => r.id == q))
               | none => false) then
        .error (.fkViolation "live_sessions_current_question_id_fkey")
      else
        .ok (some (sessionToDict (f s)),
          { db with live_sessions :=
              db.live_sessions.map fun t => if t.id == session_id then f t else t })

/-! ## Participants (db.py, PARTICIPANTS section) -/

/-- The dict of the `participants` columns. -/
def participantToDict (p : ParticipantRec) : Row :=
  [("id", .vint p.id), ("session_id", .vint p.session_id),
   ("nickname", .vstr p.nickname), ("joined_at", .vint p.joined_at)]

/-- `participants_list_for_session(conn, session_id)`: SELECT … WHERE
session_id = %s ORDER BY joined_at, id. -/
def participants_list_for_session (db : DB) (session_id : Int) : List Row :=
  (sortOn
      (fun a b => decide (a.joined_at < b.joined_at ∨
        (a.joined_at = b.joined_at ∧ a.id ≤ b.id)))
      (db.participants.filter (fun p => p.session_id == session_id))).map
    participantToDict

/-- `participants_create(conn, session_id, nickname)`: INSERT … RETURNING;
`UNIQUE (session_id, nickname)` and a foreign key into `live_sessions`. -/
def participants_create (db : DB) (now : Int) (session_id : Int)
    (nickname : String) : Except DBError (Row × DB) :=
  if db.participants.any
      (fun p => p.session_id == session_id && p.nickname == nickname) then
    .error (.uniqueViolation "participants_session_id_nickname_key")
  else if !(db.live_sessions.any (fun s => s.id == session_id)) then
    .error (.fkViolation "participants_session_id_fkey")
  else
    let p : ParticipantRec := ⟨db.next_participant_id, session_id, nickname, now⟩
    .ok (participantToDict p,
      { db with participants := db.participants ++ [p],
                next_participant_id := db.next_participant_id + 1 })

/-! ## Votes (db.py, VOTES section)

The table carries `votes_one_answer_only CHECK ((option_id IS NOT NULL) <>
(text_answer IS NOT NULL))` and `votes_one_per_question UNIQUE (session_id,
participant_id, question_id)`, plus foreign keys into `live_sessions`,
`participants`, `questions` and (nullable) `options`. -/

/-- The dict of the `votes` columns returned by `votes_create`. -/
def voteToDict (v : VoteRec) : Row :=
  [("id", .vint v.id), ("session_id", .vint v.session_id),
   ("participant_id", .vint v.participant_id),
   ("question_id", .vint v.question_id), ("option_id", optIntV v.option_id),
   ("text_answer", optStrV v.text_answer), ("created_at", .vint v.created_at)]

/-- `votes_create(conn, session_id, participant_id, question_id,
option_id=None, text_answer=None)`: INSERT … RETURNING all columns. The row
check fires first, then the unique index, then the foreign keys. -/
def votes_create (db : DB) (now : Int)
    (session_id participant_id question_id : Int) (option_id : Option Int)
    (text_answer : Option String) : Except DBError (Row × DB) :=
  if option_id.isSome == text_answer.isSome then
    .error (.checkViolation "votes_one_answer_only")
  else if db.votes.any
      (fun v => v.session_id == session_id &&
        v.participant_id == participant_id && v.question_id == question_id) then
    .error (.uniqueViolation "votes_one_per_question")
  else if !(db.live_sessions.any (fun s => s.id == session_id)) then
    .error (.fkViolation "votes_session_id_fkey")
  else if !(db.participants.any (fun p => p.id == participant_id)) then
    .error (.fkViolation "votes_participant_id_fkey")
  else if !(db.questions.any (fun q => q.id == question_id)) then
    .error (.fkViolation "votes_question_id_fkey")
  else if (match option_id with
           | some o => !(db.options.any (fun r => r.id == o))
           | none => false) then
    .error (.fkViolation "votes_option_id_fkey")
  else
    let v : VoteRec :=
      ⟨db.next_vote_id, session_id, participant_id, question_id, option_id,
       text_answer, now⟩
    .ok (voteToDict v,
      { db with votes := db.votes ++ [v], next_vote_id := db.next_vote_id + 1 })

/-! ## Q&A messages and upvotes (db.py, Q&A sections) -/

/-- The dict of the `qna_messages` columns returned by create/patch. -/
def qnaMessageToDict (m : QnaMessageRec) : Row :=
  [("id", .vint m.id), ("session_id", .vint m.session_id),
   ("participant_id", optIntV m.participant_id), ("text", .vstr m.text),
   ("is_answered", .vbool m.is_answered), ("is_hidden", .vbool m.is_hidden),
   ("created_at", .vint m.created_at)]

/-- `qna_messages_create(conn, session_id, text, participant_id=None)`:
INSERT … RETURNING; `is_answered`/`is_hidden` default to FALSE. -/
def qna_messages_create (db : DB) (now : Int) (session_id : Int)
    (text : String) (participant_id : Option Int) :
    Except DBError (Row × DB) :=
  if !(db.live_sessions.any (fun s => s.id == session_id)) then
    .error (.fkViolation "qna_messages_session_id_fkey")
  else if (match participant_id with
           | some p => !(db.participants.any (fun r => r.id == p))
           | none => false) then
    .error (.fkViolation "qna_messages_participant_id_fkey")
  else
    let m : QnaMessageRec :=
      ⟨db.next_message_id, session_id, participant_id, text, false, false, now⟩
    .ok (qnaMessageToDict m,
      { db with qna_messages := db.qna_messages ++ [m],
                next_message_id := db.next_message_id + 1 })

/-- `qna_messages_patch(conn, message_id, is_answered=None, is_hidden=None)`:
builds the SET clause from the non-None arguments only; with no updates it
returns None before touching the database; otherwise UPDATE … WHERE id = %s
RETURNING the row. -/
def qna_messages_patch (db : DB) (message_id : Int)
    (is_answered is_hidden : Option Bool) : Except DBError (Option Row × DB) :=
  if is_answered.isNone && is_hidden.isNone then
    .ok (none, db)
  else
    let f : QnaMessageRec → QnaMessageRec := fun m =>
      { m with is_answered := is_answered.getD m.is_answered,
               is_hidden := is_hidden.getD m.is_hidden }
    match db.qna_messages.find? (fun m => m.id == message_id) with
    | none => .ok (none, db)
    | some m =>
      .ok (some (qnaMessageToDict (f m)),
        { db with qna_messages :=
            db.qna_messages.map fun t => if t.id == message_id then f t else t })

/-! ## Cascading delete of a presentation (db.py `presentations_delete` with
the referential actions of db_setup.py)

`DELETE FROM presentations WHERE id = %s RETURNING id` triggers the schema's
referential actions:
- `questions.presentation_id` CASCADE, `live_sessions.presentation_id` CASCADE;
- `options.question_id` CASCADE;
- `live_sessions.current_question_id` SET NULL (on surviving sessions);
- `participants.session_id` CASCADE;
- `votes.session_id` / `votes.participant_id` / `votes.question_id` CASCADE,
  `votes.option_id` SET NULL (on surviving votes);
- `qna_messages.session_id` CASCADE, `qna_messages.participant_id` SET NULL
  (on surviving messages);
- `qna_upvotes.message_id` / `qna_upvotes.participant_id` CASCADE.
The dependency graph is acyclic, so the trigger cascade equals this
simultaneous closure. -/

/-- Whether an optional foreign-key value points into a deleted id set. -/
def hitsDeleted (deleted : List Int) : Option Int → Bool
  | some i => deleted.contains i
  | none => false

/-- Ids of the questions deleted by cascading from a presentation. -/
def delQIds (db : DB) (presentation_id : Int) : List Int :=
  (db.questions.filter (fun q => q.presentation_id == presentation_id)).map (·.id)

/-- Ids of the live sessions deleted by cascading from a presentation. -/
def delSIds (db : DB) (presentation_id : Int) : List Int :=
  (db.live_sessions.filter (fun s => s.presentation_id == presentation_id)).map (·.id)

/-- Ids of the options deleted by cascading from a presentation's questions. -/
def delOIds (db : DB) (presentation_id : Int) : List Int :=
  (db.options.filter (fun o => (delQIds db presentation_id).contains o.question_id)).map (·.id)

/-- Ids of the participants deleted by cascading from a presentation's sessions. -/
def delPIds (db : DB) (presentation_id : Int) : List Int :=
  (db.participants.filter (fun p => (delSIds db presentation_id).contains p.session_id)).map (·.id)

/-- Ids of the Q&A messages deleted by cascading from a presentation's sessions. -/
def delMIds (db : DB) (presentation_id : Int) : List Int :=
  (db.qna_messages.filter (fun m => (delSIds db presentation_id).contains m.session_id)).map (·.id)

/-- `presentations_delete(conn, presentation_id)`: returns whether a row was
deleted, together with the post-cascade state. -/
def presentations_delete (db : DB) (presentation_id : Int) : Bool × DB :=
  if db.presentations.any (fun p => p.id == presentation_id) then
    let delQ := delQIds db presentation_id
    let delS := delSIds db presentation_id
    let delO := delOIds db presentation_id
    let delP := delPIds db presentation_id
    let delM := delMIds db presentation_id
    (true,
      { db with
        presentations := db.presentations.filter (fun p => p.id != presentation_id),
        questions := db.questions.filter (fun q => q.presentation_id != presentation_id),
        options := db.options.filter (fun o => !(delQ.contains o.question_id)),
        live_sessions :=
          (db.live_sessions.filter (fun s => s.presentation_id != presentation_id)).map
            fun s =>
              if hitsDeleted delQ s.current_question_id then
                { s with current_question_id := none }
              else s,
        participants := db.participants.filter (fun p => !(delS.contains p.session_id)),
        votes :=
          (db.votes.filter
            (fun v => !(delS.contains v.session_id || delQ.contains v.question_id ||
                        delP.contains v.participant_id))).map
            fun v =>
              if hitsDeleted delO v.option_id then { v with option_id := none }
              else v,
        qna_messages :=
          (db.qna_messages.filter (fun m => !(delS.contains m.session_id))).map
            fun m =>
              if hitsDeleted delP m.participant_id then
                { m with participant_id := none }
              else m,
        qna_upvotes := db.qna_upvotes.filter
          (fun u => !(delM.contains u.message_id || delP.contains u.participant_id)) })
  else (false, db)

/-! ## HTTP endpoints (src/app.py)

`app.py` implements three routes. Each obtains a connection, calls an
attribute of the `db` module by name inside a `try`, and maps any raised
exception to an `HTTPException` (500 for the GET route, 400 for the POST
routes). A Python attribute access `db.f` succeeds exactly when the module
defines a function named `f`; otherwise it raises `AttributeError`, which the
bare `except Exception` clause catches. -/

/-- The function names actually defined at module level in `src/db.py`. -/
def dbModuleNames : List String :=
  ["users_list", "users_get", "users_create", "users_update", "users_patch",
   "users_delete",
   "presentations_list", "presentations_get", "presentations_create",
   "presentations_update", "presentations_delete",
   "question_types_list",
   "questions_list_for_presentation", "questions_get", "questions_create",
   "questions_update", "questions_delete",
   "options_list_for_question", "options_create", "options_update",
   "options_delete",
   "sessions_list", "sessions_get", "sessions_get_by_code", "sessions_create",
   "sessions_update", "sessions_patch", "sessions_delete",
   "participants_list_for_session", "participants_create",
   "participants_delete",
   "votes_list_for_session", "votes_list_for_question", "votes_create",
   "qna_messages_list_for_session", "qna_messages_create",
   "qna_messages_patch", "qna_messages_delete",
   "qna_upvotes_create", "qna_upvotes_delete"]

/-- Attribute lookup on the `db` module for a zero-argument listing function
(shape `conn → rows`): returns the function bound to that name, or `none`
(an `AttributeError`) when the module has no such binding. -/
def dbGetattrListFn (name : String) : Option (DB → List Row) :=
  if name = "users_list" then some users_list
  else if name = "presentations_list" then some presentations_list
  else if name = "question_types_list" then some question_types_list
  else if name = "sessions_list" then some sessions_list
  else none

/-- Attribute lookup on the `db` module for a function of the call shape
`conn, email, password_hash, avatar_url` used by the `/users` route. The only
user-creating function the module defines is `users_create`, whose remaining
parameter `role` defaults to "teacher". -/
def dbGetattrCreateUserFn (name : String) :
    Option (DB → Int → String → String → Option String → Except DBError (Row × DB)) :=
  if name = "users_create" then
    some (fun db now email password_hash avatar_url =>
      users_create db now email password_hash avatar_url "teacher")
  else none

/-- Attribute lookup on the `db` module for a function of the call shape
`conn, arg1, arg2` used by the `/presentations` POST route. -/
def dbGetattrCreatePresFn (name : String) :
    Option (DB → Int → String → Int → Except DBError (Row × DB)) :=
  if name = "presentations_create" then
    -- presentations_create(conn, owner_id, title); app.py would pass
    -- (conn, title, owner_id), so the adapter records that argument order.
    some (fun db now title owner_id => presentations_create db now owner_id title)
  else none

/-- An HTTP response: a success payload or an `HTTPException`. -/
inductive HttpResult (α : Type) where
  | ok : Nat → α → HttpResult α
  | err : Nat → String → HttpResult α
  deriving DecidableEq, Repr

/-- The status code of a response. -/
def HttpResult.status {α : Type} : HttpResult α → Nat
  | .ok s _ => s
  | .err s _ => s

/-- `GET /presentations` (`read_presentations` in app.py): calls
`db.get_all_presentations(conn)`; any raised exception becomes
`HTTPException(500)`. -/
def read_presentations (db : DB) : HttpResult (List Row) :=
  match dbGetattrListFn "get_all_presentations" with
  | some f => .ok 200 (f db)
  | none => .err 500 "AttributeError: module db has no attribute get_all_presentations"

/-- `POST /users` (`add_user` in app.py): calls `db.create_user(conn,
user.email, user.password_hash, user.avatar_url)`; any raised exception is
rolled back and becomes `HTTPException(400)`. -/
def add_user (db : DB) (now : Int) (email password_hash : String)
    (avatar_url : Option String) : HttpResult Row × DB :=
  match dbGetattrCreateUserFn "create_user" with
  | some f =>
    match f db now email password_hash avatar_url with
    | .ok (row, db') => (.ok 200 row, db')
    | .error _ => (.err 400 "database error", db)
  | none =>
    (.err 400 "AttributeError: module db has no attribute create_user", db)

/-- `POST /presentations` (`add_presentation` in app.py): calls
`db.create_presentation(conn, presentation.title, presentation.owner_id)`;
any raised exception is rolled back and becomes `HTTPException(400)`. -/
def add_presentation (db : DB) (now : Int) (title : String) (owner_id : Int) :
    HttpResult Row × DB :=
  match dbGetattrCreatePresFn "create_presentation" with
  | some f =>
    match f db now title owner_id with
    | .ok (row, db') => (.ok 200 row, db')
    | .error _ => (.err 400 "database error", db)
  | none =>
    (.err 400 "AttributeError: module db has no attribute create_presentation", db)

/-! ## Auxiliary definitions for the verification -/

/-- A user record with its stored `password_hash` blanked: two states agree up
to password hashes exactly when their user tables agree after `scrubUser`. -/
def scrubUser (u : UserRec) : UserRec := { u with password_hash := "" }

/-- Whether a result dict avoids the `password_hash` column. -/
def rowNoHash (r : Row) : Bool := r.all (fun kv => kv.1 != "password_hash")

/-- The row returned by a create call (empty on a constraint error). -/
def createdRows {α : Type} : Except DBError (Row × α) → List Row
  | .ok (r, _) => [r]
  | .error _ => []

/-- The row returned by an update/patch call (empty on None or error). -/
def patchedRows {α : Type} : Except DBError (Option Row × α) → List Row
  | .ok (some r, _) => [r]
  | .ok (none, _) => []
  | .error _ => []

/-- The Vote uniqueness relation of `votes_one_per_question`: two votes do not
share the (session, participant, question) tuple. -/
def distinctVoteTuples (a b : VoteRec) : Prop :=
  ¬(a.session_id = b.session_id ∧ a.participant_id = b.participant_id ∧
    a.question_id = b.question_id)

/-! ## Concrete example states (used as witnesses and counterexamples) -/

/-- A single registered teacher. -/
def exUser1 : UserRec := ⟨1, "t@example.com", "secret-hash", none, "teacher", 0, 0⟩

/-- A state with one user (reachable by `users_create` on the fresh state). -/
def dbOneUser : DB :=
  { dbEmpty with users := [exUser1], next_user_id := 2 }

/-- `dbOneUser` after `presentations_create(owner_id=1, title="Poll")`. -/
def dbOnePres : DB :=
  { dbOneUser with presentations := [⟨1, 1, "Poll", 0, 0⟩], next_presentation_id := 2 }

/-- A seeded state with a presentation, a multiple-choice question with two
options, a created live session and one participant — the spec's example
scenario (§8), reachable by the corresponding create calls. -/
def dbSession : DB :=
  { dbEmpty with
    users := [exUser1], next_user_id := 2,
    question_types := seedQuestionTypes,
    presentations := [⟨1, 1, "Poll", 0, 0⟩], next_presentation_id := 2,
    questions := [⟨1, 1, "multiple_choice", "Favorite color?", none, 0, "\x7b\x7d", 0, 0⟩],
    next_question_id := 2,
    options := [⟨1, 1, "Red", false, 0⟩, ⟨2, 1, "Blue", false, 1⟩], next_option_id := 3,
    live_sessions := [⟨1, 1, "ABC123", "created", none, 0, none, none⟩], next_session_id := 2,
    participants := [⟨1, 1, "alice", 0⟩], next_participant_id := 2 }

/-- The same registered teacher as `exUser1` but with a different stored
password hash. -/
def exUser1b : UserRec := ⟨1, "t@example.com", "other-hash", none, "teacher", 0, 0⟩

/-- `dbOneUser` with the user's stored password hash replaced. -/
def dbOneUserB : DB :=
  { dbEmpty with users := [exUser1b], next_user_id := 2 }

/-- `dbSession` after a successful vote by participant 1 for option 1 on
question 1. -/
def dbVoted : DB :=
  { dbSession with votes := [⟨1, 1, 1, 1, some 1, none, 1⟩], next_vote_id := 2 }

/-- Two presentations where presentation 2's live session points its
`current_question_id` at presentation 1's question — reachable, since
`sessions_create` only requires the question to exist, not to belong to the
session's presentation. -/
def dbCrossPres : DB :=
  { dbEmpty with
    users := [exUser1], next_user_id := 2,
    question_types := seedQuestionTypes,
    presentations := [⟨1, 1, "Poll A", 0, 0⟩, ⟨2, 1, "Poll B", 0, 0⟩],
    next_presentation_id := 3,
    questions := [⟨1, 1, "multiple_choice", "Favorite color?", none, 0, "\x7b\x7d", 0, 0⟩],
    next_question_id := 2,
    live_sessions := [⟨1, 2, "ABC123", "created", some 1, 0, none, none⟩],
    next_session_id := 2 }

/-! ## Helper lemmas -/

/-- Mapping a field extractor over a guarded row update is the identity when
the update preserves that field. -/
theorem map_update_frame {α β : Type} (l : List α) (p : α → Bool) (f : α → α)
    (g : α → β) (hg : ∀ a, g (f a) = g a) :
    (l.map fun v => if p v then f v else v).map g = l.map g := by
  induction l with
  | nil => rfl
  | cons a t ih =>
    simp only [List.map_cons, ih, List.cons.injEq, and_true]
    by_cases h : p a = true
    · simp [h, hg]
    · simp [h]

/-- `sortOn` commutes with `map` when the comparator only looks through the
mapped function. -/
theorem insertOn_map {α β : Type} (g : α → β) (le : α → α → Bool)
    (le' : β → β → Bool) (hle : ∀ a b, le' (g a) (g b) = le a b) (a : α)
    (l : List α) : (insertOn le a l).map g = insertOn le' (g a) (l.map g) := by
  induction l with
  | nil => rfl
  | cons b t ih =>
    simp only [insertOn, List.map_cons, hle]
    by_cases h : le a b = true
    · simp [h]
    · simp [h, ih]

/-- `sortOn` commutes with `map` when the comparator only looks through the
mapped function. -/
theorem sortOn_map {α β : Type} (g : α → β) (le : α → α → Bool)
    (le' : β → β → Bool) (hle : ∀ a b, le' (g a) (g b) = le a b) (l : List α) :
    (sortOn le l).map g = sortOn le' (l.map g) := by
  induction l with
  | nil => rfl
  | cons a t ih => simp only [sortOn, List.map_cons, insertOn_map g le le' hle, ih]

/-- Inversion of a successful `votes_create`: the new state appends exactly
the new vote row, and no vote with the same (session, participant, question)
tuple was present before. -/
theorem votes_create_ok_inv (db : DB) (now sid pid qid : Int)
    (o : Option Int) (t : Option String) (r : Row) (db' : DB)
    (h : votes_create db now sid pid qid o t = .ok (r, db')) :
    db'.votes = db.votes ++ [⟨db.next_vote_id, sid, pid, qid, o, t, now⟩] ∧
    db.votes.any (fun v => v.session_id == sid && v.participant_id == pid &&
      v.question_id == qid) = false := by
  unfold votes_create at h
  split at h
  · cases h
  · split at h
    · cases h
    · split at h
      · cases h
      · split at h
        · cases h
        · split at h
          · cases h
          · split at h
            · cases h
            · rename_i hdup _ _ _ _
              simp only [Except.ok.injEq, Prod.mk.injEq] at h
              obtain ⟨-, hdb⟩ := h
              subst hdb
              exact ⟨rfl, by simpa using hdup⟩

/-! ## Claim C1 -/

/-- C1: the implemented HTTP endpoints do not work end to end. `app.py`
resolves `db.get_all_presentations`, `db.create_user` and
`db.create_presentation`, none of which `db.py` defines (it defines
`presentations_list`, `users_create`, `presentations_create`), so for every
database state and every valid body each request raises `AttributeError` and
is answered with an error status — 500 for `GET /presentations`, 400 for the
two POSTs — and no row is ever inserted. -/
theorem C1_endpoints_always_error (db : DB) :
    (read_presentations db).status = 500 ∧
    (∀ (now : Int) (email password_hash : String) (avatar_url : Option String),
      (add_user db now email password_hash avatar_url).1.status = 400 ∧
      (add_user db now email password_hash avatar_url).2 = db) ∧
    (∀ (now : Int) (title : String) (owner_id : Int),
      (add_presentation db now title owner_id).1.status = 400 ∧
      (add_presentation db now title owner_id).2 = db) :=
  ⟨rfl, fun _ _ _ _ => ⟨rfl, rfl⟩, fun _ _ _ => ⟨rfl, rfl⟩⟩

/-! ## Claim C3 -/

/-- C3 counterexample: the empty-patch outcome is not distinguished from the
not-found outcome. On a state with exactly the user id 1, an empty patch of
user 1 and a non-empty patch of the nonexistent user 99 both evaluate to
`.ok (none, unchanged state)` — the two outcomes are identical, so a caller
cannot tell the no-op apart from the miss. -/
theorem C3_empty_patch_indistinguishable_from_notfound :
    users_patch dbOneUser 5 1 none none none none =
      users_patch dbOneUser 5 99 (some "x@y.example") none none none ∧
    users_patch dbOneUser 5 1 none none none none = .ok (none, dbOneUser) ∧
    sessions_patch dbSession 1 none none =
      sessions_patch dbSession 99 (some "live") none ∧
    qna_messages_patch dbOneUser 1 none none =
      qna_messages_patch dbOneUser 99 (some true) none :=
  ⟨rfl, rfl, rfl, rfl⟩

/-- C3 (amended): for every patchable entity (users, live sessions, Q&A
messages) a patch call in which every optional field argument is None is a
no-op — it returns no row, raises no error and leaves the state unchanged
(the function returns before executing any SQL). Its outcome, however,
coincides with the not-found outcome of a non-empty patch of a nonexistent
id (both are a None result on an unchanged state), rather than being
distinguished from it. -/
theorem C3_empty_patch_noop (db : DB) (now user_id session_id message_id : Int) :
    users_patch db now user_id none none none none = .ok (none, db) ∧
    sessions_patch db session_id none none = .ok (none, db) ∧
    qna_messages_patch db message_id none none = .ok (none, db) :=
  ⟨rfl, rfl, rfl⟩

/-! ## Claim C10 -/

/-- C10: no patch function can set a nullable field to NULL. A None argument
means "field not supplied", so for every call to `users_patch`,
`sessions_patch` or `qna_messages_patch` — whatever the other arguments and
whether the call hits, misses or errors — every field passed as None keeps its
previous value in every row; in particular a session's `current_question_id`
can never be cleared and a user's `avatar_url` can never be removed through
patch. (Stated per field by passing None in that position and reading the
whole column off the resulting state.) -/
theorem C10_patch_none_keeps_field (db : DB)
    (now user_id session_id message_id : Int)
    (e p a r st : Option String) (cq : Option Int) (ia ihid : Option Bool) :
    ((stateAfter (users_patch db now user_id e p none r) db).users.map (·.avatar_url) =
      db.users.map (·.avatar_url)) ∧
    ((stateAfter (users_patch db now user_id none p a r) db).users.map (·.email) =
      db.users.map (·.email)) ∧
    ((stateAfter (users_patch db now user_id e none a r) db).users.map (·.password_hash) =
      db.users.map (·.password_hash)) ∧
    ((stateAfter (users_patch db now user_id e p a none) db).users.map (·.role) =
      db.users.map (·.role)) ∧
    ((stateAfter (sessions_patch db session_id st none) db).live_sessions.map
        (·.current_question_id) =
      db.live_sessions.map (·.current_question_id)) ∧
    ((stateAfter (sessions_patch db session_id none cq) db).live_sessions.map (·.status) =
      db.live_sessions.map (·.status)) ∧
    ((stateAfter (qna_messages_patch db message_id none ihid) db).qna_messages.map
        (·.is_answered) =
      db.qna_messages.map (·.is_answered)) ∧
    ((stateAfter (qna_messages_patch db message_id ia none) db).qna_messages.map
        (·.is_hidden) =
      db.qna_messages.map (·.is_hidden)) := by
  refine ⟨?_, ?_, ?_, ?_, ?_, ?_, ?_, ?_⟩
  · simp only [users_patch]
    split
    · rfl
    · split
      · rfl
      · split
        · rfl
        · refine map_update_frame _ _ _ _ fun v => rfl
  · simp only [users_patch]
    split
    · rfl
    · split
      · rfl
      · split
        · rfl
        · refine map_update_frame _ _ _ _ fun v => rfl
  · simp only [users_patch]
    split
    · rfl
    · split
      · rfl
      · split
        · rfl
        · refine map_update_frame _ _ _ _ fun v => rfl
  · simp only [users_patch]
    split
    · rfl
    · split
      · rfl
      · split
        · rfl
        · refine map_update_frame _ _ _ _ fun v => rfl
  · simp only [sessions_patch]
    split
    · rfl
    · split
      · rfl
      · split
        · rfl
        · split
          · rfl
          · refine map_update_frame _ _ _ _ fun v => rfl
  · simp only [sessions_patch]
    split
    · rfl
    · split
      · rfl
      · split
        · rfl
        · split
          · rfl
          · refine map_update_frame _ _ _ _ fun v => rfl
  · simp only [qna_messages_patch]
    split
    · rfl
    · split
      · rfl
      · refine map_update_frame _ _ _ _ fun v => rfl
  · simp only [qna_messages_patch]
    split
    · rfl
    · split
      · rfl
      · refine map_update_frame _ _ _ _ fun v => rfl

/-! ## Claim C4 -/

/-- C4: for every state and every session, participant and question, a
`votes_create` call with both `option_id` and `text_answer` non-null, or with
both null, is rejected by the `votes_one_answer_only` check constraint and
leaves the database (in particular the votes table) unchanged; a call with
exactly one of the two set is accepted — provided it passes the table's other
constraints, i.e. the referenced session, participant, question (and option,
when given) exist and the participant has not already voted on that question
in that session — and appends exactly the new vote row. -/
theorem C4_votes_one_answer_only (db : DB)
    (now session_id participant_id question_id : Int) :
    (∀ (o : Int) (t : String),
      votes_create db now session_id participant_id question_id (some o) (some t) =
        .error (.checkViolation "votes_one_answer_only") ∧
      stateAfter (votes_create db now session_id participant_id question_id
        (some o) (some t)) db = db) ∧
    (votes_create db now session_id participant_id question_id none none =
        .error (.checkViolation "votes_one_answer_only") ∧
      stateAfter (votes_create db now session_id participant_id question_id
        none none) db = db) ∧
    (∀ o : Int,
      db.votes.any (fun v => v.session_id == session_id &&
        v.participant_id == participant_id && v.question_id == question_id) = false →
      db.live_sessions.any (fun s => s.id == session_id) = true →
      db.participants.any (fun p => p.id == participant_id) = true →
      db.questions.any (fun q => q.id == question_id) = true →
      db.options.any (fun r => r.id == o) = true →
      votes_create db now session_id participant_id question_id (some o) none =
        .ok (voteToDict ⟨db.next_vote_id, session_id, participant_id, question_id,
              some o, none, now⟩,
          { db with
            votes := db.votes ++ [⟨db.next_vote_id, session_id, participant_id,
              question_id, some o, none, now⟩],
            next_vote_id := db.next_vote_id + 1 })) ∧
    (∀ t : String,
      db.votes.any (fun v => v.session_id == session_id &&
        v.participant_id == participant_id && v.question_id == question_id) = false →
      db.live_sessions.any (fun s => s.id == session_id) = true →
      db.participants.any (fun p => p.id == participant_id) = true →
      db.questions.any (fun q => q.id == question_id) = true →
      votes_create db now session_id participant_id question_id none (some t) =
        .ok (voteToDict ⟨db.next_vote_id, session_id, participant_id, question_id,
              none, some t, now⟩,
          { db with
            votes := db.votes ++ [⟨db.next_vote_id, session_id, participant_id,
              question_id, none, some t, now⟩],
            next_vote_id := db.next_vote_id + 1 })) := by
  refine ⟨fun o t => ⟨rfl, rfl⟩, ⟨rfl, rfl⟩, ?_, ?_⟩
  · intro o h0 h1 h2 h3 h4
    simp [votes_create, h0, h1, h2, h3, h4]
  · intro t h0 h1 h2 h3
    simp [votes_create, h0, h1, h2, h3]

/-- C4 witness: on the spec's example state, a vote with both an option and a
text answer is rejected by the check constraint, and a vote for option 1 by
participant 1 on question 1 is accepted. -/
theorem C4_votes_one_answer_only_witness :
    (votes_create dbSession 1 1 1 1 (some 1) (some "Red") =
        .error (.checkViolation "votes_one_answer_only")) ∧
    votes_create dbSession 1 1 1 1 (some 1) none =
      .ok (voteToDict ⟨dbSession.next_vote_id, 1, 1, 1, some 1, none, 1⟩,
        { dbSession with
          votes := dbSession.votes ++ [⟨dbSession.next_vote_id, 1, 1, 1, some 1, none, 1⟩],
          next_vote_id := dbSession.next_vote_id + 1 }) :=
  ⟨((C4_votes_one_answer_only dbSession 1 1 1 1).1 1 "Red").1,
   (C4_votes_one_answer_only dbSession 1 1 1 1).2.2.1 1 rfl rfl rfl rfl rfl⟩

/-! ## Claim C5 -/

/-- C5: at most one vote per (session, participant, question) tuple. After a
successful `votes_create` for a tuple, a second `votes_create` for the same
tuple — with any well-formed answer, in particular a different `option_id` —
is rejected with the `votes_one_per_question` uniqueness error and leaves the
state unchanged; moreover a successful `votes_create` preserves the invariant
that all stored votes have pairwise distinct tuples, so the invariant holds
in every reachable state. -/
theorem C5_vote_unique_per_tuple (db db1 : DB)
    (now1 now2 sid pid qid : Int) (o1 o2 : Option Int) (t1 t2 : Option String)
    (r : Row)
    (h1 : votes_create db now1 sid pid qid o1 t1 = .ok (r, db1))
    (h2 : (o2.isSome == t2.isSome) = false) :
    votes_create db1 now2 sid pid qid o2 t2 =
      .error (.uniqueViolation "votes_one_per_question") ∧
    stateAfter (votes_create db1 now2 sid pid qid o2 t2) db1 = db1 ∧
    (db.votes.Pairwise distinctVoteTuples → db1.votes.Pairwise distinctVoteTuples) := by
  obtain ⟨hv, hfresh⟩ := votes_create_ok_inv db now1 sid pid qid o1 t1 r db1 h1
  have hany : db1.votes.any (fun v => v.session_id == sid &&
      v.participant_id == pid && v.question_id == qid) = true := by
    rw [hv, List.any_append]
    simp
  refine ⟨?_, ?_, ?_⟩
  · simp [votes_create, h2, hany]
  · simp [stateAfter, votes_create, h2, hany]
  · intro hp
    rw [hv, List.pairwise_append]
    refine ⟨hp, List.pairwise_singleton _ _, ?_⟩
    intro a ha b hb
    simp only [List.mem_singleton] at hb
    subst hb
    rintro ⟨hs, hpp, hq⟩
    have : db.votes.any (fun v => v.session_id == sid &&
        v.participant_id == pid && v.question_id == qid) = true := by
      refine List.any_eq_true.mpr ⟨a, ha, ?_⟩
      simp only at hs hpp hq
      simp [hs, hpp, hq]
    rw [hfresh] at this
    cases this

/-- C5 witness: on the example state, after participant 1's vote for option 1
on question 1 succeeded, a second vote for the same tuple naming the other
option 2 is rejected with the uniqueness error. -/
theorem C5_vote_unique_per_tuple_witness :
    votes_create dbVoted 2 1 1 1 (some 2) none =
      .error (.uniqueViolation "votes_one_per_question") :=
  (C5_vote_unique_per_tuple dbSession dbVoted 1 2 1 1 1 (some 1) (some 2)
    none none (voteToDict ⟨1, 1, 1, 1, some 1, none, 1⟩) rfl rfl).1

/-! ## Claim C8 -/

/-- Folding the ON-CONFLICT-DO-NOTHING seed insert over rows whose codes are
all already present leaves the state untouched. -/
theorem seed_foldl_fixed (rows : List QuestionTypeRec) (db : DB)
    (h : ∀ r ∈ rows, db.question_types.any (fun t => t.code == r.code) = true) :
    rows.foldl seedInsertOne db = db := by
  induction rows with
  | nil => rfl
  | cons r rs ih =>
    have hr := h r (List.mem_cons_self r rs)
    have hstep : seedInsertOne db r = db := by
      simp [seedInsertOne, hr]
    rw [List.foldl_cons, hstep]
    exact ih fun x hx => h x (List.mem_cons_of_mem r hx)

/-- C8: re-running the question-type seed is idempotent. In every state whose
`question_types` table already contains every seeded code, re-executing the
seed step (the thirteen-row INSERT with ON CONFLICT (code) DO NOTHING)
inserts nothing and leaves the whole state — in particular the
`question_types` table — exactly as it was. -/
theorem C8_seed_idempotent (db : DB)
    (h : ∀ r ∈ seedQuestionTypes,
      db.question_types.any (fun t => t.code == r.code) = true) :
    seedQuestionTypesStep db = db :=
  seed_foldl_fixed seedQuestionTypes db h

/-- C8 witness: on the freshly seeded state the seed step is the identity. -/
theorem C8_seed_idempotent_witness :
    seedQuestionTypesStep (seedQuestionTypesStep dbEmpty) =
      seedQuestionTypesStep dbEmpty :=
  C8_seed_idempotent (seedQuestionTypesStep dbEmpty) (by decide)

/-! ## Claim C6 -/

/-- C6: a `sessions_patch` with only `status` supplied (any status allowed by
the check constraint, e.g. "live"), applied to an id with a matching session,
returns that session with only the status field replaced and produces a state
in which that session's other fields — `current_question_id`, `access_code`,
`presentation_id`, timestamps — are unchanged, every other session row is
unchanged, and every other table and counter is unchanged. -/
theorem C6_sessions_patch_status_only (db : DB) (session_id : Int)
    (st : String) (s : SessionRec)
    (hfind : db.live_sessions.find? (fun t => t.id == session_id) = some s)
    (hst : sessionStatuses.contains st = true) :
    sessions_patch db session_id (some st) none =
      .ok (some (sessionToDict { s with status := st }),
        { db with live_sessions := db.live_sessions.map (fun t => if t.id == session_id then { t with status := st } else t) }) := by
  simp [sessions_patch, hfind, hst]
  simpa using hst

/-- C6 witness: patching the example session to "live" returns it with only
the status changed; its `current_question_id`, access code and presentation
are untouched. -/
theorem C6_sessions_patch_status_only_witness :
    sessions_patch dbSession 1 (some "live") none =
      .ok (some (sessionToDict ⟨1, 1, "ABC123", "live", none, 0, none, none⟩),
        { dbSession with live_sessions := dbSession.live_sessions.map (fun t => if t.id == 1 then { t with status := "live" } else t) }) :=
  C6_sessions_patch_status_only dbSession 1 "live"
    ⟨1, 1, "ABC123", "created", none, 0, none, none⟩ rfl rfl

/-! ## Claim C9 -/

/-- The user dict ignores the stored password hash. -/
theorem rowNoHash_userToDict (u : UserRec) : rowNoHash (userToDict u) = true := rfl

/-- The user dict is invariant under scrubbing the password hash. -/
theorem userToDict_scrub (u : UserRec) : userToDict (scrubUser u) = userToDict u := rfl

/-- `users_list` only depends on the users table through `scrubUser`. -/
theorem users_list_scrub (db : DB) (users2 : List UserRec)
    (h : db.users.map scrubUser = users2.map scrubUser) :
    users_list db = users_list { db with users := users2 } := by
  have hcomp : userToDict ∘ scrubUser = userToDict := funext fun u => rfl
  have key : ∀ l : List UserRec,
      (sortOn (fun a b => decide (a.id ≤ b.id)) l).map userToDict =
      (sortOn (fun a b => decide (a.id ≤ b.id)) (l.map scrubUser)).map userToDict := by
    intro l
    rw [← sortOn_map scrubUser (fun a b => decide (a.id ≤ b.id))
      (fun a b => decide (a.id ≤ b.id)) (fun a b => rfl) l]
    rw [List.map_map, hcomp]
  show (sortOn (fun a b => decide (a.id ≤ b.id)) db.users).map userToDict =
    (sortOn (fun a b => decide (a.id ≤ b.id)) users2).map userToDict
  rw [key db.users, key users2, h]

/-- `find?` by id followed by the user dict only depends on the list through
`scrubUser`. -/
theorem users_find_scrub (uid : Int) (l1 l2 : List UserRec)
    (h : l1.map scrubUser = l2.map scrubUser) :
    (l1.find? (fun u => u.id == uid)).map userToDict =
    (l2.find? (fun u => u.id == uid)).map userToDict := by
  induction l1 generalizing l2 with
  | nil =>
    cases l2 with
    | nil => rfl
    | cons b t2 => simp at h
  | cons a t1 ih =>
    cases l2 with
    | nil => simp at h
    | cons b t2 =>
      simp only [List.map_cons, List.cons.injEq] at h
      obtain ⟨hab, ht⟩ := h
      have hid : a.id = b.id := congrArg (fun u => u.id) hab
      have hdict : userToDict a = userToDict b := by
        calc userToDict a = userToDict (scrubUser a) := rfl
          _ = userToDict (scrubUser b) := by rw [hab]
          _ = userToDict b := rfl
      simp only [List.find?]
      rw [hid]
      cases hb : b.id == uid with
      | true => simpa using hdict
      | false => simpa using ih t2 ht

/-- C9: the stored password hash never flows into the results of the user
query functions. Every row returned by `users_list`, `users_get`,
`users_create`, `users_update` and `users_patch` lacks a `password_hash`
field, and two states whose user tables differ only in stored password
hashes produce identical outputs from the user read operations `users_list`
and `users_get`. -/
theorem C9_password_hash_confined (db : DB) (users2 : List UserRec)
    (now user_id : Int) (email password_hash : String)
    (avatar_url : Option String) (role : String) (e2 p2 a2 r2 : Option String)
    (h : db.users.map scrubUser = users2.map scrubUser) :
    ((users_list db).all rowNoHash = true) ∧
    ((users_get db user_id).toList.all rowNoHash = true) ∧
    ((createdRows (users_create db now email password_hash avatar_url role)).all
      rowNoHash = true) ∧
    ((patchedRows (users_update db now user_id email password_hash avatar_url
      role)).all rowNoHash = true) ∧
    ((patchedRows (users_patch db now user_id e2 p2 a2 r2)).all rowNoHash = true) ∧
    users_list db = users_list { db with users := users2 } ∧
    (∀ uid : Int, users_get db uid = users_get { db with users := users2 } uid) := by
  refine ⟨?_, ?_, ?_, ?_, ?_, ?_, ?_⟩
  · refine List.all_eq_true.mpr ?_
    intro r hr
    obtain ⟨u, -, rfl⟩ := List.mem_map.mp hr
    rfl
  · cases hf : db.users.find? (fun u => u.id == user_id) with
    | none => simp [users_get, hf]
    | some u => simp [users_get, hf, rowNoHash_userToDict]
  · unfold users_create
    split
    · rfl
    · simp [createdRows, rowNoHash_userToDict]
  · unfold users_update
    split
    · rfl
    · split
      · rfl
      · simp [patchedRows, rowNoHash_userToDict]
  · simp only [users_patch]
    by_cases hempty : (e2.isNone && p2.isNone && a2.isNone && r2.isNone) = true
    · simp [hempty, patchedRows]
    · rw [if_neg hempty]
      cases hf : db.users.find? (fun u => u.id == user_id) with
      | none => simp [hf, patchedRows]
      | some u =>
        cases e2 with
        | none => simp [hf, patchedRows, rowNoHash_userToDict]
        | some e =>
          by_cases hdup : db.users.any (fun v => v.email == e && v.id != user_id) = true
          · simp [hf, hdup, patchedRows]
          · simp [hf, hdup, patchedRows, rowNoHash_userToDict]
  · exact users_list_scrub db users2 h
  · intro uid
    show (db.users.find? (fun u => u.id == uid)).map userToDict =
      (users2.find? (fun u => u.id == uid)).map userToDict
    exact users_find_scrub uid db.users users2 h

/-- C9 witness: on two one-user states that differ only in the stored
password hash, the read operations agree and no returned row mentions the
hash column. -/
theorem C9_password_hash_confined_witness :
    ([exUser1].map scrubUser = [exUser1b].map scrubUser) ∧
    (users_list dbOneUser).all rowNoHash = true ∧
    users_list dbOneUser = users_list { dbOneUser with users := [exUser1b] } ∧
    users_get dbOneUser 1 = users_get { dbOneUser with users := [exUser1b] } 1 := by
  have h := C9_password_hash_confined dbOneUser [exUser1b] 0 1 "e" "p" none
    "teacher" none none none none (by decide)
  exact ⟨by decide, h.1, h.2.2.2.2.2.1, h.2.2.2.2.2.2 1⟩

/-! ## Claim C2 -/

/-- C2 counterexample: the create/get round trip does not return an identical
row for presentations. On the one-user state, `presentations_create` returns
the dict with columns id, owner_id, title, created_at, updated_at, but
`presentations_get` on the returned id returns that dict extended with the
join-derived `owner_email` field — a different row. -/
theorem C2_roundtrip_counterexample :
    presentations_create dbOneUser 0 1 "Poll" =
      .ok (presToDict ⟨1, 1, "Poll", 0, 0⟩, dbOnePres) ∧
    presentations_get dbOnePres 1 =
      some (presToDict ⟨1, 1, "Poll", 0, 0⟩ ++
        [("owner_email", .vstr "t@example.com")]) ∧
    presentations_get dbOnePres 1 ≠ some (presToDict ⟨1, 1, "Poll", 0, 0⟩) :=
  ⟨rfl, rfl, by decide⟩

/-- C2 (amended): for every valid create, a get on the returned id returns
every field of the created row with an identical value. For users the rows
are identical dicts; for presentations and questions the get returns exactly
the created dict extended with one join-derived field (`owner_email`,
resp. `type_label`), so the round trip is value-identical on the created
columns but not row-identical. (The freshness hypotheses — no stored row
already carries the next serial id — hold in every reachable state.) -/
theorem C2_create_get_roundtrip (db : DB) :
    (∀ (now : Int) (email ph : String) (av : Option String) (role : String)
      (r : Row) (db' : DB),
      db.users.all (fun u => u.id != db.next_user_id) = true →
      users_create db now email ph av role = .ok (r, db') →
      users_get db' db.next_user_id = some r) ∧
    (∀ (now owner_id : Int) (title : String) (uo : UserRec) (r : Row) (db' : DB),
      db.presentations.all (fun p => p.id != db.next_presentation_id) = true →
      db.users.find? (fun u => u.id == owner_id) = some uo →
      presentations_create db now owner_id title = .ok (r, db') →
      presentations_get db' db.next_presentation_id =
        some (r ++ [("owner_email", .vstr uo.email)])) ∧
    (∀ (now presentation_id : Int) (type_code text : String)
      (media_url : Option String) (order_index : Int) (settings : Option String)
      (qt : QuestionTypeRec) (r : Row) (db' : DB),
      db.questions.all (fun q => q.id != db.next_question_id) = true →
      db.question_types.find? (fun t => t.code == type_code) = some qt →
      questions_create db now presentation_id type_code text media_url
        order_index settings = .ok (r, db') →
      questions_get db' db.next_question_id =
        some (r ++ [("type_label", .vstr qt.label)])) := by
  refine ⟨?_, ?_, ?_⟩
  · intro now email ph av role r db' hall hc
    unfold users_create at hc
    split at hc
    · cases hc
    · simp only [Except.ok.injEq, Prod.mk.injEq] at hc
      obtain ⟨hr, hdb⟩ := hc
      subst hdb
      have hnone : db.users.find? (fun u => u.id == db.next_user_id) = none := by
        refine List.find?_eq_none.mpr ?_
        intro x hx
        have := List.all_eq_true.mp hall x hx
        simpa using this
      show ((db.users ++ [(⟨db.next_user_id, email, ph, av, role, now, now⟩ :
        UserRec)]).find? (fun u => u.id == db.next_user_id)).map userToDict = some r
      rw [List.find?_append, hnone]
      simpa using hr
  · intro now owner_id title uo r db' hall howner hc
    unfold presentations_create at hc
    split at hc
    · cases hc
    · simp only [Except.ok.injEq, Prod.mk.injEq] at hc
      obtain ⟨hr, hdb⟩ := hc
      subst hdb
      have hnone : db.presentations.find?
          (fun p => p.id == db.next_presentation_id) = none := by
        refine List.find?_eq_none.mpr ?_
        intro x hx
        have := List.all_eq_true.mp hall x hx
        simpa using this
      unfold presentations_get
      rw [show ({ db with
          presentations := db.presentations ++
            [(⟨db.next_presentation_id, owner_id, title, now, now⟩ : PresentationRec)],
          next_presentation_id := db.next_presentation_id + 1 } : DB).presentations.find?
            (fun p => p.id == db.next_presentation_id) =
          ((db.presentations ++ [(⟨db.next_presentation_id, owner_id, title, now, now⟩ : PresentationRec)]).find?
            (fun p => p.id == db.next_presentation_id)) from rfl]
      rw [List.find?_append, hnone]
      simp only [Option.none_or, List.find?_cons, beq_self_eq_true]
      rw [show (db.users.find? (fun u => u.id == owner_id)) = some uo from howner]
      simp [hr]
  · intro now presentation_id type_code text media_url order_index settings qt r db'
      hall htype hc
    unfold questions_create at hc
    split at hc
    · cases hc
    · split at hc
      · cases hc
      · simp only [Except.ok.injEq, Prod.mk.injEq] at hc
        obtain ⟨hr, hdb⟩ := hc
        subst hdb
        have hnone : db.questions.find?
            (fun q => q.id == db.next_question_id) = none := by
          refine List.find?_eq_none.mpr ?_
          intro x hx
          have := List.all_eq_true.mp hall x hx
          simpa using this
        unfold questions_get
        rw [show ({ db with
            questions := db.questions ++
              [(⟨db.next_question_id, presentation_id, type_code, text, media_url,
                order_index, settings.getD "\x7b\x7d", now, now⟩ : QuestionRec)],
            next_question_id := db.next_question_id + 1 } : DB).questions.find?
              (fun q => q.id == db.next_question_id) =
            ((db.questions ++ [(⟨db.next_question_id, presentation_id, type_code,
              text, media_url, order_index, settings.getD "\x7b\x7d", now, now⟩ : QuestionRec)]).find?
              (fun q => q.id == db.next_question_id)) from rfl]
        rw [List.find?_append, hnone]
        simp only [Option.none_or, List.find?_cons, beq_self_eq_true]
        rw [show (db.question_types.find? (fun t => t.code == type_code)) =
          some qt from htype]
        simp [hr]

/-- C2 witness: on the fresh state, creating the example user and then
getting the returned id yields the identical row. -/
theorem C2_create_get_roundtrip_witness :
    (dbEmpty.users.all (fun u => u.id != dbEmpty.next_user_id) = true) ∧
    users_get dbOneUser dbEmpty.next_user_id = some (userToDict exUser1) :=
  ⟨rfl, (C2_create_get_roundtrip dbEmpty).1 0 "t@example.com" "secret-hash"
    none "teacher" (userToDict exUser1) dbOneUser rfl rfl⟩

/-! ## Claim C7 -/

/-- C7 counterexample: deleting a presentation can modify a row belonging to
another presentation. In `dbCrossPres`, the live session of presentation 2
points its `current_question_id` at presentation 1's question; deleting
presentation 1 SET-NULLs that pointer, so presentation 2's session row is
changed. -/
theorem C7_cascade_counterexample :
    (presentations_delete dbCrossPres 1).1 = true ∧
    dbCrossPres.live_sessions =
      [⟨1, 2, "ABC123", "created", some 1, 0, none, none⟩] ∧
    (presentations_delete dbCrossPres 1).2.live_sessions =
      [⟨1, 2, "ABC123", "created", none, 0, none, none⟩] ∧
    (⟨1, 2, "ABC123", "created", some 1, 0, none, none⟩ : SessionRec) ≠
      ⟨1, 2, "ABC123", "created", none, 0, none, none⟩ :=
  ⟨rfl, rfl, rfl, by decide⟩

/-- C7 (amended): for every presentation id present in the database,
`presentations_delete` reports success and removes the presentation together
with all its questions, all options of those questions, all its live
sessions, and all participants, votes and Q&A messages of those sessions
(votes also vanish when their question or participant is deleted, Q&A upvotes
when their message or participant is), leaving no orphan children of the
deleted rows; rows of other presentations survive, but are not always
untouched: per the schema's ON DELETE SET NULL actions, a surviving session
whose `current_question_id` references a deleted question gets that pointer
nulled (likewise a surviving vote's `option_id` for a deleted option and a
surviving Q&A message's `participant_id` for a deleted participant). Users,
question types and the id counters are unchanged. -/
theorem C7_presentation_delete_cascade (db : DB) (pid : Int) (b : Bool)
    (db' : DB)
    (hp : db.presentations.any (fun p => p.id == pid) = true)
    (hdel : presentations_delete db pid = (b, db')) :
    b = true ∧
    (∀ p ∈ db'.presentations, p.id ≠ pid) ∧
    (∀ p ∈ db.presentations, p.id ≠ pid → p ∈ db'.presentations) ∧
    (∀ q ∈ db'.questions, q.presentation_id ≠ pid) ∧
    (∀ q ∈ db.questions, q.presentation_id ≠ pid → q ∈ db'.questions) ∧
    (∀ o ∈ db'.options, (delQIds db pid).contains o.question_id = false) ∧
    (∀ o ∈ db.options, (delQIds db pid).contains o.question_id = false →
      o ∈ db'.options) ∧
    (∀ s ∈ db'.live_sessions, s.presentation_id ≠ pid) ∧
    (∀ s ∈ db.live_sessions, s.presentation_id ≠ pid →
      (if hitsDeleted (delQIds db pid) s.current_question_id then
        { s with current_question_id := none } else s) ∈ db'.live_sessions) ∧
    (∀ p ∈ db'.participants, (delSIds db pid).contains p.session_id = false) ∧
    (∀ p ∈ db.participants, (delSIds db pid).contains p.session_id = false →
      p ∈ db'.participants) ∧
    (∀ v ∈ db'.votes, (delSIds db pid).contains v.session_id = false ∧
      (delQIds db pid).contains v.question_id = false ∧
      (delPIds db pid).contains v.participant_id = false) ∧
    (∀ v ∈ db.votes, (delSIds db pid).contains v.session_id = false →
      (delQIds db pid).contains v.question_id = false →
      (delPIds db pid).contains v.participant_id = false →
      (if hitsDeleted (delOIds db pid) v.option_id then
        { v with option_id := none } else v) ∈ db'.votes) ∧
    (∀ m ∈ db'.qna_messages, (delSIds db pid).contains m.session_id = false) ∧
    (∀ m ∈ db.qna_messages, (delSIds db pid).contains m.session_id = false →
      (if hitsDeleted (delPIds db pid) m.participant_id then
        { m with participant_id := none } else m) ∈ db'.qna_messages) ∧
    (∀ u ∈ db'.qna_upvotes, (delMIds db pid).contains u.message_id = false ∧
      (delPIds db pid).contains u.participant_id = false) ∧
    (∀ u ∈ db.qna_upvotes, (delMIds db pid).contains u.message_id = false →
      (delPIds db pid).contains u.participant_id = false →
      u ∈ db'.qna_upvotes) ∧
    db'.users = db.users ∧ db'.question_types = db.question_types ∧
    db'.next_presentation_id = db.next_presentation_id := by
  unfold presentations_delete at hdel
  rw [if_pos hp] at hdel
  simp only [Prod.mk.injEq] at hdel
  obtain ⟨hb, hdb⟩ := hdel
  subst hdb
  refine ⟨hb.symm, ?_, ?_, ?_, ?_, ?_, ?_, ?_, ?_, ?_, ?_, ?_, ?_, ?_, ?_, ?_,
    ?_, rfl, rfl, rfl⟩
  · intro p hp2
    simp only [List.mem_filter] at hp2
    simpa using hp2.2
  · intro p hp2 hne
    exact List.mem_filter.mpr ⟨hp2, by simpa using hne⟩
  · intro q hq
    simp only [List.mem_filter] at hq
    simpa using hq.2
  · intro q hq hne
    exact List.mem_filter.mpr ⟨hq, by simpa using hne⟩
  · intro o ho
    simp only [List.mem_filter] at ho
    simpa using ho.2
  · intro o ho hne
    exact List.mem_filter.mpr ⟨ho, by simpa using hne⟩
  · intro s hs
    simp only [List.mem_map, List.mem_filter] at hs
    obtain ⟨w, ⟨hw, hwp⟩, hws⟩ := hs
    have : s.presentation_id = w.presentation_id := by
      subst hws
      by_cases hk : hitsDeleted (delQIds db pid) w.current_question_id = true
      · simp [hk]
      · simp [hk]
    rw [this]
    simpa using hwp
  · intro s hs hne
    exact List.mem_map_of_mem _ (List.mem_filter.mpr ⟨hs, by simpa using hne⟩)
  · intro p hp2
    simp only [List.mem_filter] at hp2
    simpa using hp2.2
  · intro p hp2 hne
    exact List.mem_filter.mpr ⟨hp2, by simpa using hne⟩
  · intro v hv
    simp only [List.mem_map, List.mem_filter] at hv
    obtain ⟨w, ⟨hw, hwp⟩, hwv⟩ := hv
    have hfields : v.session_id = w.session_id ∧ v.question_id = w.question_id ∧
        v.participant_id = w.participant_id := by
      subst hwv
      by_cases hk : hitsDeleted (delOIds db pid) w.option_id = true
      · simp [hk]
      · simp [hk]
    obtain ⟨h1, h2, h3⟩ := hfields
    rw [h1, h2, h3]
    simp only [Bool.not_eq_true', Bool.or_eq_false_iff] at hwp
    exact ⟨hwp.1.1, hwp.1.2, hwp.2⟩
  · intro v hv h1 h2 h3
    refine List.mem_map_of_mem _ (List.mem_filter.mpr ⟨hv, ?_⟩)
    rw [h1, h2, h3]
    rfl
  · intro m hm
    simp only [List.mem_map, List.mem_filter] at hm
    obtain ⟨w, ⟨hw, hwp⟩, hwm⟩ := hm
    have : m.session_id = w.session_id := by
      subst hwm
      by_cases hk : hitsDeleted (delPIds db pid) w.participant_id = true
      · simp [hk]
      · simp [hk]
    rw [this]
    simpa using hwp
  · intro m hm hne
    exact List.mem_map_of_mem _ (List.mem_filter.mpr ⟨hm, by simpa using hne⟩)
  · intro u hu
    simp only [List.mem_filter] at hu
    have := hu.2
    simp only [Bool.not_eq_true', Bool.or_eq_false_iff] at this
    exact this
  · intro u hu h1 h2
    refine List.mem_filter.mpr ⟨hu, ?_⟩
    rw [h1, h2]
    rfl

/-- C7 witness: on the cross-presentation state, deleting presentation 1
succeeds and its question is gone. -/
theorem C7_presentation_delete_cascade_witness :
    (∀ q ∈ (presentations_delete dbCrossPres 1).2.questions,
      q.presentation_id ≠ 1) ∧
    (presentations_delete dbCrossPres 1).2.users = dbCrossPres.users :=
  ⟨(C7_presentation_delete_cascade dbCrossPres 1
      (presentations_delete dbCrossPres 1).1
      (presentations_delete dbCrossPres 1).2 rfl rfl).2.2.2.1,
   (C7_presentation_delete_cascade dbCrossPres 1
      (presentations_delete dbCrossPres 1).1
      (presentations_delete dbCrossPres 1).2 rfl rfl).2.2.2.2.2.2.2.2.2.2.2.2.2.2.2.2.2.1⟩

end Melt
